import Mathlib

/-!
Verification of the stock-dashboard orchestration client (`src/app.py`).

The Python source is a Streamlit page.  Its orchestration layer consists of
pure-ish functions (`is_valid_ticker`, `fetch_tickers`,
`fetch_historical_data`, `fetch_predictions`, `add_new_ticker`) plus the
render script that builds the plotted data frame from the backend responses.
We embed each of them shallowly:

* network and provider calls are modelled by passing in the response the
  call would observe (`HttpResult` / `ProviderResult`);
* UI side effects (`st.error`, `st.warning`, `st.success`, chart rendering,
  the HTTP requests themselves) are recorded in an explicit `Effect` trace;
* `pandas` timestamps are proleptic-Gregorian ordinal day numbers (`Nat`),
  produced by a parser `toDatetime` modelling `pd.to_datetime` on the
  ISO `YYYY-MM-DD` strings the backend sends; `timedelta(days=i)` is `+ i`;
* Python exceptions escaping the render script are modelled by `Except PyExn`
  (`pd.DataFrame` with unequal column lengths raises `ValueError`;
  `pd.to_datetime` raises on an unparsable string);
* JSON numbers (closing prices, predictions) are modelled as `ℚ`.
-/

namespace StockApp

/-! ### Calendar dates

`pd.to_datetime` turns the backend's ISO `YYYY-MM-DD` strings into
timestamps; adding `timedelta(days=i)` moves `i` calendar days forward.
We model a timestamp as the proleptic Gregorian ordinal of the day
(`date(1,1,1)` is day 1, as in Python's `date.toordinal`). -/

/-- Gregorian leap-year rule. -/
def isLeap (y : Nat) : Bool :=
  y % 4 == 0 && (y % 100 != 0 || y % 400 == 0)

/-- Number of days in month `m` (1..12) of year `y`. -/
def daysInMonth (y m : Nat) : Nat :=
  if m = 2 then (if isLeap y then 29 else 28)
  else if m = 4 ∨ m = 6 ∨ m = 9 ∨ m = 11 then 30
  else 31

/-- Days in year `y` strictly before month `m`. -/
def daysBeforeMonth (y m : Nat) : Nat :=
  (List.range (m - 1)).foldl (fun acc i => acc + daysInMonth y (i + 1)) 0

/-- Proleptic Gregorian ordinal of the calendar day `y-m-d`
(`1-1-1` maps to `1`, matching Python's `date.toordinal`). -/
def toOrdinal (y m d : Nat) : Nat :=
  365 * (y - 1) + (y - 1) / 4 - (y - 1) / 100 + (y - 1) / 400 + daysBeforeMonth y m + d

/-- Split a list of characters at every occurrence of `c`. -/
def splitOnChar (c : Char) : List Char → List (List Char)
  | [] => [[]]
  | x :: xs =>
    match splitOnChar c xs with
    | [] => if x = c then [[], []] else [[x]]
    | g :: gs => if x = c then [] :: g :: gs else (x :: g) :: gs

/-- Read a non-empty all-digit character list as a decimal number. -/
def parseNum (cs : List Char) : Option Nat :=
  if cs.isEmpty then none
  else
    cs.foldl
      (fun acc c =>
        match acc with
        | none => none
        | some n => if c.isDigit then some (n * 10 + (c.toNat - 48)) else none)
      (some 0)

/-- Model of `pd.to_datetime` on one ISO `YYYY-MM-DD` string: `some` ordinal
day number when the string is a well-formed calendar date, `none` when the
parse fails (in Python this raises). -/
def toDatetime (s : String) : Option Nat :=
  match (splitOnChar '-' s.data).map parseNum with
  | [some y, some m, some d] =>
    if 1 ≤ y ∧ 1 ≤ m ∧ m ≤ 12 ∧ 1 ≤ d ∧ d ≤ daysInMonth y m then
      some (toOrdinal y m d)
    else none
  | _ => none

/-- Model of `pd.to_datetime` applied to the whole `dates` list (line 128):
succeeds only when every string parses. -/
def parseDates : List String → Option (List Nat)
  | [] => some []
  | s :: ss =>
    match toDatetime s, parseDates ss with
    | some d, some ds => some (d :: ds)
    | _, _ => none

/-! ### Effects and network model -/

/-- Observable side effects of the script: outgoing requests and the
Streamlit UI side channel (`st.error` / `st.warning` / `st.success`,
chart rendering). -/
inductive Effect
  | httpGetTickers
  | httpGetHistorical (t : String)
  | httpPostPredict (t : String)
  | httpPostAdd (t : String)
  | providerHistory (t : String)
  | errorMsg (m : String)
  | warningMsg (m : String)
  | successMsg (m : Option String)
  | plotChart
  deriving DecidableEq

/-- Outcome a `requests` call observes: a 2xx response with decoded JSON
body `α`, or a `requests.exceptions.RequestException` (transport failure,
timeout, or the non-2xx raised by `raise_for_status`). -/
inductive HttpResult (α : Type)
  | ok (body : α)
  | reqError (msg : String)
  deriving DecidableEq

/-- Outcome of `yf.Ticker(t).history(period="1d")`: a frame with `n` rows,
or an exception raised anywhere in the lookup. -/
inductive ProviderResult
  | rows (n : Nat)
  | exn
  deriving DecidableEq

/-- Decoded body of `GET /historical_data/{ticker}`:
`{"dates": [string...], "close": [number...]}`. -/
structure HistJson where
  dates : List String
  close : List ℚ
  deriving DecidableEq

/-- Decoded body of `POST /predict`: `{"predictions": [number...]}`. -/
structure PredJson where
  predictions : List ℚ
  deriving DecidableEq

/-- Decoded body of `POST /add`: `null`, or a JSON object.  Python
truthiness: `None` and `{}` are falsy, a non-empty object is truthy. -/
inductive AddBody
  | null
  | obj (fields : List (String × String))
  deriving DecidableEq

/-- Python truthiness of the decoded add-endpoint body. -/
def AddBody.truthy : AddBody → Bool
  | .null => false
  | .obj fs => !fs.isEmpty

/-- `add_response.get("message")` (line 114). -/
def AddBody.getMessage : AddBody → Option String
  | .null => none
  | .obj fs => (fs.find? (fun p => p.1 == "message")).map Prod.snd

/-! ### The orchestration functions (`src/app.py` lines 14–74) -/

/-- `is_valid_ticker` (lines 14–25): `not hist.empty` on success,
`False` when the provider raises. -/
def is_valid_ticker (r : ProviderResult) : Bool :=
  match r with
  | .rows n => !(n == 0)
  | .exn => false

/-- `fetch_tickers` (lines 28–36): the decoded list on success, otherwise
`st.error(...)` and `[]`. -/
def fetch_tickers (resp : HttpResult (List String)) : List String × List Effect :=
  match resp with
  | .ok body => (body, [Effect.httpGetTickers])
  | .reqError e =>
    ([], [Effect.httpGetTickers, Effect.errorMsg ("Error fetching tickers: " ++ e)])

/-- `fetch_historical_data` (lines 39–47): the decoded body on success,
otherwise `st.error(...)` and `None`. -/
def fetch_historical_data (t : String) (resp : HttpResult HistJson) :
    Option HistJson × List Effect :=
  match resp with
  | .ok body => (some body, [Effect.httpGetHistorical t])
  | .reqError e =>
    (none,
     [Effect.httpGetHistorical t,
      Effect.errorMsg ("Error fetching historical data for " ++ t ++ ": " ++ e)])

/-- `fetch_predictions` (lines 50–60): the decoded body on success,
otherwise `st.error(...)` and `None`. -/
def fetch_predictions (t : String) (resp : HttpResult PredJson) :
    Option PredJson × List Effect :=
  match resp with
  | .ok body => (some body, [Effect.httpPostPredict t])
  | .reqError e =>
    (none,
     [Effect.httpPostPredict t,
      Effect.errorMsg ("Error fetching predictions for " ++ t ++ ": " ++ e)])

/-- `add_new_ticker` (lines 63–74): validate first; if invalid,
`st.error` and `None` with no backend call; otherwise `POST /add` and
return the decoded body, or `st.error` and `None` on request failure. -/
def add_new_ticker (t : String) (provider : ProviderResult)
    (addResp : HttpResult AddBody) : Option AddBody × List Effect :=
  if !is_valid_ticker provider then
    (none, [Effect.providerHistory t, Effect.errorMsg ("Invalid ticker: " ++ t)])
  else
    match addResp with
    | .ok body => (some body, [Effect.providerHistory t, Effect.httpPostAdd t])
    | .reqError e =>
      (none,
       [Effect.providerHistory t, Effect.httpPostAdd t,
        Effect.errorMsg ("Error adding ticker " ++ t ++ ": " ++ e)])

/-- The spec's `fetchHistorical`: the backend call (`fetch_historical_data`)
combined with the guard at line 126 that treats an empty `dates` list the
same as a failed fetch — absence of data, not a zero-length series. -/
def fetchHistorical (t : String) (resp : HttpResult HistJson) : Option HistJson :=
  match (fetch_historical_data t resp).1 with
  | some hj => if hj.dates.isEmpty then none else some hj
  | none => none

/-! ### Data frames and the plotted series (`src/app.py` lines 122–174) -/

/-- A Python exception escaping the render script: `pandas` `ValueError`
(unequal column lengths in `pd.DataFrame`, line 131/141) or a parse error
from `pd.to_datetime` (line 128). -/
inductive PyExn
  | valueError
  | parseError
  deriving DecidableEq

/-- A two-column frame `{"Date": ..., "Close": ...}`. -/
structure DataFrame where
  Date : List Nat
  Close : List ℚ
  deriving DecidableEq

/-- `pd.DataFrame({"Date": dates, "Close": close})`: raises `ValueError`
when the columns have different lengths. -/
def mkDataFrame (dates : List Nat) (close : List ℚ) : Except PyExn DataFrame :=
  if dates.length = close.length then Except.ok ⟨dates, close⟩
  else Except.error PyExn.valueError

/-- `pd.concat([a, b], ignore_index=True)` on two-column frames. -/
def concatDF (a b : DataFrame) : DataFrame :=
  ⟨a.Date ++ b.Date, a.Close ++ b.Close⟩

/-- `df_historical["Date"].max()` (line 139), as a fold over the column. -/
def maxDate (l : List Nat) : Nat := l.foldl max 0

/-- `[last_date + timedelta(days=i) for i in range(1, 8)]` (line 140). -/
def prediction_dates (last_date : Nat) : List Nat :=
  (List.range 7).map (fun i => last_date + (i + 1))

/-- The spec's `buildCombinedSeries`, from lines 136–143: with predictions
present it builds `df_predictions` over the 7 derived dates and
concatenates; with predictions absent the historical frame is plotted
unchanged (lines 162–170). -/
def buildCombinedSeries (df_historical : DataFrame) (preds : Option (List ℚ)) :
    Except PyExn DataFrame :=
  match preds with
  | none => Except.ok df_historical
  | some predictions =>
    match mkDataFrame (prediction_dates (maxDate df_historical.Date)) predictions with
    | Except.ok df_predictions => Except.ok (concatDF df_historical df_predictions)
    | Except.error e => Except.error e

/-- The render script below the sidebar (lines 122–174): from the selected
ticker and the two backend responses, either a Python exception escapes, or
the script finishes having plotted an optional frame and emitted a trace. -/
def renderMain (selected : Option String) (histResp : HttpResult HistJson)
    (predResp : HttpResult PredJson) : Except PyExn (Option DataFrame × List Effect) :=
  match selected with
  | none => Except.ok (none, [])
  | some t =>
    let fh := fetch_historical_data t histResp
    match fh.1 with
    | none =>
      Except.ok (none, fh.2 ++
        [Effect.warningMsg
          "Could not retrieve data, please make sure ticker has valid historical data"])
    | some hj =>
      if hj.dates.isEmpty then
        Except.ok (none, fh.2 ++
          [Effect.warningMsg
            "Could not retrieve data, please make sure ticker has valid historical data"])
      else
        match parseDates hj.dates with
        | none => Except.error PyExn.parseError
        | some dts =>
          match mkDataFrame dts hj.close with
          | Except.error e => Except.error e
          | Except.ok df_historical =>
            let fp := fetch_predictions t predResp
            match fp.1 with
            | none => Except.ok (some df_historical, fh.2 ++ fp.2 ++ [Effect.plotChart])
            | some pj =>
              if pj.predictions.isEmpty then
                Except.ok (some df_historical, fh.2 ++ fp.2 ++ [Effect.plotChart])
              else
                match buildCombinedSeries df_historical (some pj.predictions) with
                | Except.error e => Except.error e
                | Except.ok df_combined =>
                  Except.ok (some df_combined, fh.2 ++ fp.2 ++ [Effect.plotChart])

/-- The frame the script plotted, if the script finished and plotted one. -/
def plottedDF (r : Except PyExn (Option DataFrame × List Effect)) : Option DataFrame :=
  match r with
  | Except.ok (d, _) => d
  | Except.error _ => none

/-- `true` iff the render script ran to completion (no exception escaped). -/
def renderCompletes (r : Except PyExn (Option DataFrame × List Effect)) : Bool :=
  match r with
  | Except.ok _ => true
  | Except.error _ => false

/-! ### Sidebar: session state, selection, add-ticker (lines 80–120) -/

/-- The session-scoped state (`st.session_state`). -/
structure SessionState where
  selected_ticker : Option String
  all_tickers : List String
  deriving DecidableEq

/-- `st.selectbox("Select Ticker", options, ...)` (lines 101–105): Streamlit
always returns one of `options` (the user's current pick, defaulting to
index 0); the pick is supplied as an arbitrary index, reduced mod the
length so the result is always an element. -/
def selectbox (options : List String) (pick : Nat) (h : options ≠ []) : String :=
  options.get ⟨pick % options.length, Nat.mod_lt pick (List.length_pos.mpr h)⟩

/-- The selection part of the sidebar (lines 94–105): re-fetch the ticker
list, then either warn and clear the selection (empty list) or select via
the selectbox.  The previous state is overwritten unconditionally. -/
def renderSidebar (prev : SessionState) (resp : HttpResult (List String)) (pick : Nat) :
    SessionState × List Effect :=
  if h : (fetch_tickers resp).1 = [] then
    (⟨none, (fetch_tickers resp).1⟩,
     (fetch_tickers resp).2 ++ [Effect.warningMsg "No tickers available. Please add a ticker."])
  else
    (⟨some (selectbox (fetch_tickers resp).1 pick h), (fetch_tickers resp).1⟩,
     (fetch_tickers resp).2)

/-- Result of the add-ticker button handler. -/
structure ButtonOutcome where
  state : SessionState
  effects : List Effect
  rerun : Bool
  deriving DecidableEq

/-- The add-ticker branch (lines 111–120): when the button was clicked and
the input is non-empty, run `add_new_ticker`; only when the returned body is
truthy does the script show the success message, re-fetch the ticker list
and trigger `st.rerun()`. -/
def addButtonFlow (s : SessionState) (add_button : Bool) (new_ticker : String)
    (provider : ProviderResult) (addResp : HttpResult AddBody)
    (refetchResp : HttpResult (List String)) : ButtonOutcome :=
  if add_button ∧ new_ticker ≠ "" then
    let ar := add_new_ticker new_ticker provider addResp
    match ar.1 with
    | some body =>
      if body.truthy then
        let ft := fetch_tickers refetchResp
        ⟨{ s with all_tickers := ft.1 },
         ar.2 ++ [Effect.successMsg body.getMessage] ++ ft.2, true⟩
      else ⟨s, ar.2, false⟩
    | none => ⟨s, ar.2, false⟩
  else ⟨s, [], false⟩

/-! ### Helper lemmas -/

/-- The seven derived prediction dates. -/
theorem prediction_dates_length (d : Nat) : (prediction_dates d).length = 7 := by
  simp [prediction_dates]

/-- `pd.DataFrame` succeeds on equal-length columns. -/
theorem mkDataFrame_ok (dates : List Nat) (close : List ℚ)
    (h : dates.length = close.length) :
    mkDataFrame dates close = Except.ok ⟨dates, close⟩ := by
  simp [mkDataFrame, h]

/-- Parsing the whole `dates` column preserves its length. -/
theorem parseDates_length (l : List String) (ds : List Nat)
    (h : parseDates l = some ds) : ds.length = l.length := by
  induction l generalizing ds with
  | nil =>
    simp [parseDates] at h
    simp [← h]
  | cons s ss ih =>
    simp only [parseDates] at h
    cases hd : toDatetime s with
    | none => rw [hd] at h; exact absurd h (by simp)
    | some d =>
      cases hds : parseDates ss with
      | none => rw [hd, hds] at h; exact absurd h (by simp)
      | some ds0 =>
        rw [hd, hds] at h
        cases h
        simp [ih ds0 hds]

/-- The fold accumulator is a lower bound of the fold. -/
theorem le_foldl_max (l : List Nat) : ∀ a : Nat, a ≤ l.foldl max a := by
  induction l with
  | nil => intro a; exact Nat.le_refl a
  | cons x xs ih =>
    intro a
    exact Nat.le_trans (Nat.le_max_left a x) (ih (max a x))

/-- Every element of the list is bounded by the fold. -/
theorem mem_le_foldl_max (l : List Nat) :
    ∀ (a : Nat), ∀ x ∈ l, x ≤ l.foldl max a := by
  induction l with
  | nil => intro a x hx; exact absurd hx (List.not_mem_nil x)
  | cons y ys ih =>
    intro a x hx
    rcases List.mem_cons.mp hx with rfl | h
    · exact Nat.le_trans (Nat.le_max_right a x) (le_foldl_max ys (max a x))
    · exact ih (max a y) x h

/-- The fold is the accumulator or an element of the list. -/
theorem foldl_max_mem (l : List Nat) :
    ∀ a : Nat, l.foldl max a = a ∨ l.foldl max a ∈ l := by
  induction l with
  | nil => intro a; exact Or.inl rfl
  | cons y ys ih =>
    intro a
    rcases ih (max a y) with h | h
    · rcases max_choice a y with hm | hm
      · exact Or.inl (by rw [List.foldl_cons, h, hm])
      · refine Or.inr ?_
        rw [List.foldl_cons, h, hm]
        exact List.mem_cons_self y ys
    · exact Or.inr (List.mem_cons_of_mem y h)

/-- `maxDate` bounds every entry of the column. -/
theorem maxDate_is_ub (l : List Nat) : ∀ x ∈ l, x ≤ maxDate l :=
  mem_le_foldl_max l 0

/-- On a non-empty column, `maxDate` is attained. -/
theorem maxDate_mem (l : List Nat) (hne : l ≠ []) : maxDate l ∈ l := by
  rcases foldl_max_mem l 0 with h | h
  · cases l with
    | nil => exact absurd rfl hne
    | cons x xs =>
      have hx : x ≤ maxDate (x :: xs) :=
        maxDate_is_ub (x :: xs) x (List.mem_cons_self x xs)
      have hx0 : x = 0 := Nat.le_zero.mp (by rw [maxDate] at hx; rw [h] at hx; exact hx)
      have : maxDate (x :: xs) = x := by rw [maxDate, h, hx0]
      rw [this]
      exact List.mem_cons_self x xs
  · exact h

/-! ### Claim theorems -/

/-- C3: `is_valid_ticker` returns `true` exactly when the provider's
one-day history lookup returns at least one row, and returns `false`
(rather than raising — it is a total function) whenever the provider
raises an exception. -/
theorem c3_is_valid_ticker_iff_rows (r : ProviderResult) :
    (is_valid_ticker r = true ↔ ∃ n : Nat, r = ProviderResult.rows n ∧ 1 ≤ n) ∧
    is_valid_ticker ProviderResult.exn = false := by
  refine ⟨?_, rfl⟩
  cases r with
  | rows n =>
    constructor
    · intro h
      refine ⟨n, rfl, ?_⟩
      by_contra h1
      have hn : n = 0 := by omega
      subst hn
      exact absurd h (by decide)
    · rintro ⟨m, hm, h1⟩
      cases hm
      simp only [is_valid_ticker, Bool.not_eq_true', beq_eq_false_iff_ne, ne_eq]
      omega
  | exn =>
    constructor
    · intro h
      exact absurd h (by rw [is_valid_ticker]; exact Bool.false_ne_true)
    · rintro ⟨m, hm, _⟩
      exact ProviderResult.noConfusion hm

/-- Witness for C3 at a concrete provider outcome with one row. -/
theorem c3_is_valid_ticker_iff_rows_witness :
    is_valid_ticker (ProviderResult.rows 1) = true :=
  (c3_is_valid_ticker_iff_rows (ProviderResult.rows 1)).1.mpr ⟨1, rfl, by decide⟩

/-- C4: building the combined series with predictions absent returns the
historical frame itself, unchanged in length and values (the operation is
pure, so `hist` is not mutated). -/
theorem c4_absent_predictions_identity (df : DataFrame) :
    buildCombinedSeries df none = Except.ok df := rfl

/-- C5: `fetch_tickers` always yields a list the caller can iterate: on a
2xx response it is the decoded body, and on any request failure (transport
failure, timeout, or the non-2xx raised by `raise_for_status`) it is the
empty list — never an exception, never `None` — with the failure surfaced
on the user-facing error channel. -/
theorem c5_fetch_tickers_total (resp : HttpResult (List String)) :
    (∃ l : List String, (fetch_tickers resp).1 = l) ∧
    (∀ e : String, resp = HttpResult.reqError e →
      (fetch_tickers resp).1 = [] ∧
      Effect.errorMsg ("Error fetching tickers: " ++ e) ∈ (fetch_tickers resp).2) := by
  refine ⟨⟨(fetch_tickers resp).1, rfl⟩, ?_⟩
  rintro e rfl
  exact ⟨rfl, by simp [fetch_tickers]⟩

/-- Witness for C5 at a concrete failed request. -/
theorem c5_fetch_tickers_total_witness :
    (fetch_tickers (HttpResult.reqError "connection refused")).1 = [] :=
  ((c5_fetch_tickers_total (HttpResult.reqError "connection refused")).2
    "connection refused" rfl).1

/-- C6: a 2xx historical-data response whose decoded body has an empty
`dates` list is treated as absence of data: the spec's `fetchHistorical`
(the fetch plus the line-126 guard) returns `none`, and the render script
plots nothing for it. -/
theorem c6_empty_dates_is_absent (t : String) (close : List ℚ)
    (predResp : HttpResult PredJson) :
    fetchHistorical t (HttpResult.ok ⟨[], close⟩) = none ∧
    plottedDF (renderMain (some t) (HttpResult.ok ⟨[], close⟩) predResp) = none :=
  ⟨rfl, rfl⟩

/-- C1: with a non-empty historical frame and exactly 7 predictions, the
combined series is the historical frame followed by 7 new points: its
columns are the historical columns extended by 7 entries, the appended
dates are the 7 consecutive calendar days following `max(hist.dates)` in
order, and they are paired index-wise with the 7 prediction values in
order (`maxDate df.Date` is attained in and bounds the historical dates,
so it is `max(hist.dates)`). -/
theorem c1_combined_series_shape (df : DataFrame) (preds : List ℚ)
    (hne : df.Date ≠ []) (hwf : df.Date.length = df.Close.length)
    (h7 : preds.length = 7) :
    buildCombinedSeries df (some preds) =
      Except.ok ⟨df.Date ++ prediction_dates (maxDate df.Date), df.Close ++ preds⟩ ∧
    prediction_dates (maxDate df.Date) =
      [maxDate df.Date + 1, maxDate df.Date + 2, maxDate df.Date + 3,
       maxDate df.Date + 4, maxDate df.Date + 5, maxDate df.Date + 6,
       maxDate df.Date + 7] ∧
    (df.Date ++ prediction_dates (maxDate df.Date)).length = df.Date.length + 7 ∧
    (df.Close ++ preds).length = df.Close.length + 7 ∧
    (df.Date ++ prediction_dates (maxDate df.Date)).length = (df.Close ++ preds).length ∧
    maxDate df.Date ∈ df.Date ∧
    (∀ x ∈ df.Date, x ≤ maxDate df.Date) := by
  have hlen : (prediction_dates (maxDate df.Date)).length = preds.length := by
    rw [prediction_dates_length, h7]
  refine ⟨?_, rfl, ?_, ?_, ?_, maxDate_mem df.Date hne, maxDate_is_ub df.Date⟩
  · rw [buildCombinedSeries, mkDataFrame_ok _ _ hlen]
    rfl
  · rw [List.length_append, prediction_dates_length]
  · rw [List.length_append, h7]
  · rw [List.length_append, List.length_append, prediction_dates_length, h7, hwf]

/-- Witness for C1 at a concrete two-point history and 7 predictions. -/
theorem c1_combined_series_shape_witness :
    buildCombinedSeries ⟨[5, 9], [1, 2]⟩ (some [3, 3, 3, 3, 3, 3, 3]) =
      Except.ok ⟨[5, 9, 10, 11, 12, 13, 14, 15, 16], [1, 2, 3, 3, 3, 3, 3, 3, 3]⟩ :=
  (c1_combined_series_shape ⟨[5, 9], [1, 2]⟩ [3, 3, 3, 3, 3, 3, 3]
    (by decide) (by decide) (by decide)).1

/-- C2: when the validity check fails, `add_new_ticker` returns `None`,
performs no request to the backend's add endpoint, and surfaces the
"Invalid ticker" error message. -/
theorem c2_invalid_no_add_call (t : String) (provider : ProviderResult)
    (addResp : HttpResult AddBody) (h : is_valid_ticker provider = false) :
    (add_new_ticker t provider addResp).1 = none ∧
    Effect.httpPostAdd t ∉ (add_new_ticker t provider addResp).2 ∧
    Effect.errorMsg ("Invalid ticker: " ++ t) ∈ (add_new_ticker t provider addResp).2 := by
  rw [add_new_ticker.eq_def, h]
  refine ⟨rfl, ?_, ?_⟩
  · simp
  · simp

/-- Witness for C2 at the invalid candidate from the spec, with the
provider raising. -/
theorem c2_invalid_no_add_call_witness :
    (add_new_ticker "ZZZZINVALID" ProviderResult.exn
      (HttpResult.ok (AddBody.obj [("message", "added")]))).1 = none ∧
    Effect.httpPostAdd "ZZZZINVALID" ∉
      (add_new_ticker "ZZZZINVALID" ProviderResult.exn
        (HttpResult.ok (AddBody.obj [("message", "added")]))).2 ∧
    Effect.errorMsg ("Invalid ticker: " ++ "ZZZZINVALID") ∈
      (add_new_ticker "ZZZZINVALID" ProviderResult.exn
        (HttpResult.ok (AddBody.obj [("message", "added")]))).2 :=
  c2_invalid_no_add_call "ZZZZINVALID" ProviderResult.exn
    (HttpResult.ok (AddBody.obj [("message", "added")])) rfl

/-- C8: in the concrete scenario — tickers `["AAPL","MSFT"]`, selection
`"AAPL"`, historical dates `["2024-01-01","2024-01-02"]` with closes
`[100,102]`, predictions `[103..109]` — the sidebar selects `"AAPL"`, the
plotted combined frame has exactly the 9 expected points, its last date is
the ordinal of `2024-01-09` and its last value is `109` (ordinal `738886`
is `2024-01-01`). -/
theorem c8_end_to_end_scenario :
    (renderSidebar ⟨none, []⟩ (HttpResult.ok ["AAPL", "MSFT"]) 0).1.selected_ticker
      = some "AAPL" ∧
    plottedDF (renderMain (some "AAPL")
        (HttpResult.ok ⟨["2024-01-01", "2024-01-02"], [100, 102]⟩)
        (HttpResult.ok ⟨[103, 104, 105, 106, 107, 108, 109]⟩)) =
      some ⟨[738886, 738887, 738888, 738889, 738890, 738891, 738892, 738893, 738894],
            [100, 102, 103, 104, 105, 106, 107, 108, 109]⟩ ∧
    ([738886, 738887, 738888, 738889, 738890, 738891, 738892, 738893,
      738894] : List Nat).length = 9 ∧
    ([738886, 738887, 738888, 738889, 738890, 738891, 738892, 738893,
      738894] : List Nat).getLast? = toDatetime "2024-01-09" ∧
    ([100, 102, 103, 104, 105, 106, 107, 108, 109] : List ℚ).getLast? = some 109 ∧
    toDatetime "2024-01-01" = some 738886 :=
  ⟨rfl, rfl, rfl, rfl, rfl, rfl⟩

/-- C9: after the sidebar's selection step, the selected ticker is `none`
exactly when the freshly fetched ticker list is empty, and otherwise is an
element of that list; the stored list is the fresh fetch, and none of this
depends on the previous session state, so a stale selection never
survives. -/
theorem c9_sidebar_selection_invariant (prev : SessionState)
    (resp : HttpResult (List String)) (pick : Nat) :
    ((renderSidebar prev resp pick).1.selected_ticker = none ↔
      (renderSidebar prev resp pick).1.all_tickers = []) ∧
    (∀ t, (renderSidebar prev resp pick).1.selected_ticker = some t →
      t ∈ (renderSidebar prev resp pick).1.all_tickers) ∧
    (renderSidebar prev resp pick).1.all_tickers = (fetch_tickers resp).1 := by
  by_cases h : (fetch_tickers resp).1 = []
  · rw [renderSidebar, dif_pos h]
    exact ⟨by simp [h], by simp, rfl⟩
  · rw [renderSidebar, dif_neg h]
    refine ⟨by simp [h], ?_, rfl⟩
    intro t ht
    have : selectbox (fetch_tickers resp).1 pick h = t := by
      simpa using ht
    rw [← this, selectbox]
    exact List.get_mem _ _ _

/-- Witness for C9 at a concrete fetched list. -/
theorem c9_sidebar_selection_invariant_witness :
    "AAPL" ∈ (renderSidebar ⟨some "GONE", ["GONE"]⟩
      (HttpResult.ok ["AAPL", "MSFT"]) 0).1.all_tickers :=
  (c9_sidebar_selection_invariant ⟨some "GONE", ["GONE"]⟩
    (HttpResult.ok ["AAPL", "MSFT"]) 0).2.1 "AAPL" rfl

/-- C10: when the add-ticker button was clicked with a non-empty valid
candidate and the backend's add call returned 2xx, but the decoded body is
falsy (`null` or `{}`), the success path is skipped: the POST to the add
endpoint did happen, yet no success message is shown, the ticker list is
not re-fetched, no rerun is triggered, and the session state is left
unchanged. -/
theorem c10_falsy_add_body_skips_success (s : SessionState) (t : String)
    (provider : ProviderResult) (body : AddBody)
    (refetchResp : HttpResult (List String))
    (hvalid : is_valid_ticker provider = true) (ht : t ≠ "")
    (hb : body.truthy = false) :
    Effect.httpPostAdd t ∈
      (addButtonFlow s true t provider (HttpResult.ok body) refetchResp).effects ∧
    (∀ m, Effect.successMsg m ∉
      (addButtonFlow s true t provider (HttpResult.ok body) refetchResp).effects) ∧
    Effect.httpGetTickers ∉
      (addButtonFlow s true t provider (HttpResult.ok body) refetchResp).effects ∧
    (addButtonFlow s true t provider (HttpResult.ok body) refetchResp).rerun = false ∧
    (addButtonFlow s true t provider (HttpResult.ok body) refetchResp).state = s := by
  rw [addButtonFlow.eq_def]
  simp only [add_new_ticker, hvalid, Bool.not_true, Bool.false_eq_true, if_false, ht,
    ne_eq, not_false_iff, and_self, if_true, hb, Bool.false_eq_true]
  simp [hb]

/-- Witness for C10 with a `null` body on a valid candidate. -/
theorem c10_falsy_add_body_skips_success_witness :
    Effect.httpPostAdd "AAPL" ∈
      (addButtonFlow ⟨none, []⟩ true "AAPL" (ProviderResult.rows 1)
        (HttpResult.ok AddBody.null) (HttpResult.ok [])).effects ∧
    (addButtonFlow ⟨none, []⟩ true "AAPL" (ProviderResult.rows 1)
      (HttpResult.ok AddBody.null) (HttpResult.ok [])).rerun = false :=
  ⟨(c10_falsy_add_body_skips_success ⟨none, []⟩ "AAPL" (ProviderResult.rows 1)
      AddBody.null (HttpResult.ok []) rfl (by decide) rfl).1,
   (c10_falsy_add_body_skips_success ⟨none, []⟩ "AAPL" (ProviderResult.rows 1)
      AddBody.null (HttpResult.ok []) rfl (by decide) rfl).2.2.2.1⟩

/-- C7 fails on the code: with a 2xx predictions response of length 3 (not
7), `pd.DataFrame({"Date": prediction_dates, "Close": predictions})` at
line 141 is given columns of lengths 7 and 3 and raises `ValueError`, which
escapes the render script — so an exception does cross the layer's
boundary and the render loop does not complete. -/
theorem c7_exception_escapes_counterexample :
    renderMain (some "AAPL") (HttpResult.ok ⟨["2024-01-01"], [100]⟩)
      (HttpResult.ok ⟨[103, 104, 105]⟩) = Except.error PyExn.valueError :=
  rfl

/-- C7 (amended): provided every 2xx historical body has parseable date
strings and equal-length `dates`/`close` columns, and every 2xx predictions
body is either empty or of length exactly 7, no exception escapes the
render script: it completes for every selection and every response,
representing failures as an absent frame plus a user-visible message. -/
theorem c7_no_exception_when_shapes_ok (selected : Option String)
    (histResp : HttpResult HistJson) (predResp : HttpResult PredJson)
    (hh : ∀ hj, histResp = HttpResult.ok hj →
      (∃ ds, parseDates hj.dates = some ds) ∧ hj.dates.length = hj.close.length)
    (hp : ∀ pj, predResp = HttpResult.ok pj →
      pj.predictions = [] ∨ pj.predictions.length = 7) :
    renderCompletes (renderMain selected histResp predResp) = true := by
  cases selected with
  | none => rfl
  | some t =>
    cases histResp with
    | reqError e => rfl
    | ok hj =>
      obtain ⟨⟨ds, hds⟩, hlen⟩ := hh hj rfl
      by_cases hde : hj.dates.isEmpty
      · rw [renderMain.eq_def]
        simp [fetch_historical_data, hde, renderCompletes]
      · have hdf : mkDataFrame ds hj.close = Except.ok ⟨ds, hj.close⟩ :=
          mkDataFrame_ok ds hj.close (by rw [parseDates_length hj.dates ds hds, hlen])
        cases predResp with
        | reqError e =>
          rw [renderMain.eq_def]
          simp [fetch_historical_data, hde, hds, hdf, fetch_predictions, renderCompletes]
        | ok pj =>
          rcases hp pj rfl with hpe | hp7
          · rw [renderMain.eq_def]
            simp [fetch_historical_data, hde, hds, hdf, fetch_predictions, hpe,
              renderCompletes]
          · have hpne : ¬pj.predictions.isEmpty := by
              rw [List.isEmpty_iff]
              intro h0
              rw [h0] at hp7
              exact absurd hp7 (by decide)
            have hbc : buildCombinedSeries ⟨ds, hj.close⟩ (some pj.predictions) =
                Except.ok (concatDF ⟨ds, hj.close⟩
                  ⟨prediction_dates (maxDate ds), pj.predictions⟩) := by
              rw [buildCombinedSeries,
                mkDataFrame_ok _ _ (by rw [prediction_dates_length, hp7])]
            rw [renderMain.eq_def]
            simp [fetch_historical_data, hde, hds, hdf, fetch_predictions, hpne,
              hbc, renderCompletes]

/-- Witness for the amended C7 at concrete well-shaped responses. -/
theorem c7_no_exception_when_shapes_ok_witness :
    renderCompletes (renderMain (some "AAPL")
      (HttpResult.ok ⟨["2024-01-01", "2024-01-02"], [100, 102]⟩)
      (HttpResult.ok ⟨[103, 104, 105, 106, 107, 108, 109]⟩)) = true :=
  c7_no_exception_when_shapes_ok (some "AAPL")
    (HttpResult.ok ⟨["2024-01-01", "2024-01-02"], [100, 102]⟩)
    (HttpResult.ok ⟨[103, 104, 105, 106, 107, 108, 109]⟩)
    (by intro hj h; cases h; exact ⟨⟨[738886, 738887], rfl⟩, rfl⟩)
    (by intro pj h; cases h; exact Or.inr rfl)

end StockApp
